import Mathlib

/-!
Verification of the conectric-usb-gateway protocol engine (src/index.js).

JavaScript strings are modelled as lists of UTF-16 code units (`List Char`);
JavaScript numbers appear here only as integers-or-NaN (`Option Int`, with
`none` for NaN) or as exact rationals-or-NaN (`Option Rat`), since every
numeric computation the claims touch is decimal arithmetic that the source's
`round-to` dependency rounds decimally.  The transcendental lux computation
(`Math.pow` with a fractional exponent) is represented symbolically by its
inputs, see `LuxSym`.
-/

namespace Conectric

/-- JS strings: lists of UTF-16 code units. -/
abbrev JsStr := List Char

/-- Coerce a Lean string literal into the JS-string model. -/
def str (s : String) : JsStr := s.toList

/-- A JS number known to be an integer, or NaN (`none`). -/
abbrev JsInt := Option Int

/-- An exact rational, kept normalized (lowest terms, positive denominator)
so that structural equality is numeric equality and every operation computes
by plain `Nat`/`Int` arithmetic. -/
structure JsRat where
  num : Int
  den : Nat
  deriving DecidableEq

/-- Normalize a fraction.  Every call site passes a nonzero denominator (the
source never divides by zero on the paths modelled here). -/
def JsRat.norm (n : Int) (d : Nat) : JsRat :=
  let g := Nat.gcd n.natAbs d
  ⟨n / (g : Int), d / g⟩

instance (n : Nat) : OfNat JsRat n := ⟨⟨(n : Int), 1⟩⟩

instance : Neg JsRat := ⟨fun a => ⟨-a.num, a.den⟩⟩

instance : Add JsRat := ⟨fun a b => JsRat.norm (a.num * b.den + b.num * a.den) (a.den * b.den)⟩

instance : Mul JsRat := ⟨fun a b => JsRat.norm (a.num * b.num) (a.den * b.den)⟩

instance : Div JsRat := ⟨fun a b => JsRat.norm (a.num * b.den * b.num.sign) (a.den * b.num.natAbs)⟩

/-- Embed an integer. -/
def JsRat.ofInt (i : Int) : JsRat := ⟨i, 1⟩

/-- Floor of a normalized rational (`Int` division is Euclidean, which is
floor division for the positive denominators maintained here). -/
def JsRat.floor (a : JsRat) : Int := a.num / (a.den : Int)

/-- A JS number modelled as an exact rational, or NaN (`none`). -/
abbrev JsNum := Option JsRat

/-- Model of `String.prototype.substring(a, b)`: both indices are clamped to
`[0, length]` and swapped when out of order.  (The one call site with a
possibly negative second argument, `data.substring(0, data.length - 4)`,
clamps negatives to 0 exactly as truncated `Nat` subtraction does.) -/
def jsSubstring (s : JsStr) (a b : Nat) : JsStr :=
  let a1 := min a s.length
  let b1 := min b s.length
  (s.drop (min a1 b1)).take (max a1 b1 - min a1 b1)

/-- `s.substring(a)`: from index `a` to the end. -/
def jsSubstringFrom (s : JsStr) (a : Nat) : JsStr := jsSubstring s a s.length

/-- `String.prototype.substr(n, len)` (used by `hexDecode`): `len` characters
from index `n` (non-negative `n` only, which is all the source uses). -/
def jsSubstr (s : JsStr) (n len : Nat) : JsStr := (s.drop n).take len

/-- `String.prototype.startsWith`. -/
def jsStartsWith (s pre : JsStr) : Bool := pre.isPrefixOf s

/-- ASCII-range model of `String.prototype.toLowerCase` (the handshake records
it is applied to are ASCII). -/
def jsToLowerChar (c : Char) : Char :=
  if 65 ≤ c.toNat ∧ c.toNat ≤ 90 then Char.ofNat (c.toNat + 32) else c

/-- Lowercase an entire JS string. -/
def jsToLower (s : JsStr) : JsStr := s.map jsToLowerChar

/-- The ECMAScript WhiteSpace and LineTerminator code points skipped by
`parseInt`. -/
def isJsWhitespace (c : Char) : Bool :=
  (9 ≤ c.toNat ∧ c.toNat ≤ 13) || c.toNat = 32 || c.toNat = 160 || c.toNat = 0x1680 ||
  (0x2000 ≤ c.toNat ∧ c.toNat ≤ 0x200A) || c.toNat = 0x2028 || c.toNat = 0x2029 ||
  c.toNat = 0x202F || c.toNat = 0x205F || c.toNat = 0x3000 || c.toNat = 0xFEFF

/-- Value of one hexadecimal digit character, if any. -/
def hexDigit? (c : Char) : Option Nat :=
  if 48 ≤ c.toNat ∧ c.toNat ≤ 57 then some (c.toNat - 48)
  else if 97 ≤ c.toNat ∧ c.toNat ≤ 102 then some (c.toNat - 87)
  else if 65 ≤ c.toNat ∧ c.toNat ≤ 70 then some (c.toNat - 55)
  else none

/-- Accumulate the longest prefix of hex digits (stopping at the first
non-digit), as `parseInt` does. -/
def hexVal : JsStr → Nat → Nat
  | [], acc => acc
  | c :: cs, acc =>
    match hexDigit? c with
    | some d => hexVal cs (16 * acc + d)
    | none => acc

/-- Model of `parseInt(s, 16)`: skip whitespace, optional sign, optional
`0x`/`0X` prefix, then the longest prefix of hex digits; NaN (`none`) when no
digit follows.  (Precision loss of IEEE doubles beyond 2^53 is not modelled;
no call site the claims depend on parses more than 8 hex digits.) -/
def jsParseInt16 (s : JsStr) : JsInt :=
  let s1 := s.dropWhile isJsWhitespace
  let signed : Int × JsStr :=
    match s1 with
    | '-' :: r => (-1, r)
    | '+' :: r => (1, r)
    | _ => (1, s1)
  let s3 :=
    match signed.2 with
    | '0' :: 'x' :: r => r
    | '0' :: 'X' :: r => r
    | _ => signed.2
  match s3 with
  | [] => none
  | c :: _ =>
    match hexDigit? c with
    | some _ => some (signed.1 * (hexVal s3 0 : Int))
    | none => none

/-- JS bitwise AND of a possibly-NaN number against a small non-negative mask:
`ToInt32` sends NaN to 0 and wraps modulo 2^32; for masks below 2^31 the
result equals masking the low 32 bits. -/
def jsAndMask (v : JsInt) (mask : Nat) : Nat :=
  match v with
  | none => 0
  | some i => (i % (4294967296 : Int)).toNat &&& mask

/-- Decimal rendering of an integer-or-NaN JS number, as template-literal
interpolation produces it. -/
def jsIntToStr : JsInt → JsStr
  | none => str "NaN"
  | some i => if i < 0 then '-' :: Nat.toDigits 10 i.natAbs else Nat.toDigits 10 i.toNat

/-- Model of `String.fromCharCode`: `ToUint16`, NaN to 0.  (Code units in the
surrogate range are not representable as `Char`; `Char.ofNat` then falls back
to 0.  `hexDecode` only ever produces values below 256.) -/
def jsFromCharCode (v : JsInt) : Char :=
  match v with
  | none => Char.ofNat 0
  | some i => Char.ofNat ((i % (65536 : Int)).toNat)

/-- `n.toString(16)`: lowercase hexadecimal digits, `"0"` for zero. -/
def jsToString16 (n : Nat) : JsStr := Nat.toDigits 16 n

/-- One iteration of `hexEncode`: hex-encode a char code, left-padding a
single digit with `'0'` (src/index.js `hexEncode`, lines 333-347). -/
def hexEncodeChar (n : Nat) : JsStr :=
  let encoded := jsToString16 n
  if encoded.length = 1 then '0' :: encoded else encoded

/-- `hexEncode` (src/index.js lines 333-347): concatenation of the per-char
encodings. -/
def hexEncode : JsStr → JsStr
  | [] => []
  | c :: rest => hexEncodeChar c.toNat ++ hexEncode rest

/-- `hexDecode` (src/index.js lines 349-357): consume two characters at a
time via `substr(n, 2)` (a trailing odd character yields a 1-char slice). -/
def hexDecode : JsStr → JsStr
  | [] => []
  | [c] => [jsFromCharCode (jsParseInt16 [c])]
  | c1 :: c2 :: rest => jsFromCharCode (jsParseInt16 [c1, c2]) :: hexDecode rest

/-- The `round-to` dependency: round to `p` decimal places, half toward
positive infinity exactly like `Math.round` (it shifts the decimal exponent
textually, so it rounds the decimal value, not a binary approximation). -/
def roundTo (q : JsRat) (p : Nat) : JsRat :=
  let shift : JsRat := ⟨(10 : Int) ^ p, 1⟩
  JsRat.ofInt (JsRat.floor (q * shift + ⟨1, 2⟩)) / shift

/-- `roundTo` lifted over NaN. -/
def jsRoundTo (x : JsNum) (p : Nat) : JsNum := x.map (fun q => roundTo q p)

/-- Integer-or-NaN to rational-or-NaN. -/
def jqOfInt : JsInt → JsNum := Option.map JsRat.ofInt

/-- Caller configuration (src/index.js `PARAM_SCHEMA` plus the defaulting
performed at the top of `runGateway`, lines 163-181: `sendBootMessages`,
`sendDecodedPayload`, `deDuplicateBursts` and `decodeTextMessages` default to
true, every other boolean option is undefined, hence falsy, by default). -/
structure Params where
  sendAdcWithLux : Bool := false
  sendRawData : Bool := false
  sendRawLux : Bool := false
  sendBootMessages : Bool := true
  sendStatusMessages : Bool := false
  sendDecodedPayload : Bool := true
  sendEventCount : Bool := false
  useFahrenheitTemps : Bool := false
  useMillisecondTimestamps : Bool := false
  switchOpenValue : Bool := false
  deDuplicateBursts : Bool := true
  decodeTextMessages : Bool := true
  debugMode : Bool := false
  sendHopData : Bool := false
  deriving DecidableEq

/-- Result of `calculateTemperature`. -/
structure TempResult where
  temperature : JsNum
  temperatureUnit : JsStr
  deriving DecidableEq

/-- `calculateTemperature` (src/index.js lines 359-374):
`roundTo(-46.85 + ((parseInt(tempRaw, 16) / 65536) * 175.72), 2)`, converted
to Fahrenheit and re-rounded when `useFahrenheitTemps` is set.  (The source's
unreachable statement after the Celsius `return` is dead code.) -/
def calculateTemperature (p : Params) (tempRaw : JsStr) : TempResult :=
  let temperature :=
    jsRoundTo ((jqOfInt (jsParseInt16 tempRaw)).map
      (fun v => -(4685/100 : JsRat) + v / 65536 * (17572/100))) 2
  if p.useFahrenheitTemps then
    { temperature := jsRoundTo (temperature.map (fun c => c * (9/5) + 32)) 2
      temperatureUnit := str "F" }
  else
    { temperature := temperature, temperatureUnit := str "C" }

/-- `calculateHumidity` (src/index.js lines 376-378):
`roundTo(-6 + (125 * (parseInt(humidityRaw, 16) / 65536)), 2)`. -/
def calculateHumidity (humidityRaw : JsStr) : JsNum :=
  jsRoundTo ((jqOfInt (jsParseInt16 humidityRaw)).map
    (fun v => -(6 : JsRat) + 125 * (v / 65536))) 2

/-- `MESSAGE_TYPES` (src/index.js lines 26-41): 2-hex-digit code to symbolic
name. -/
def MESSAGE_TYPES : List (JsStr × JsStr) :=
  [(str "30", str "tempHumidity"), (str "31", str "switch"), (str "32", str "motion"),
   (str "36", str "rs485Request"), (str "37", str "rs485Response"),
   (str "38", str "rs485ChunkRequest"), (str "39", str "rs485ChunkResponse"),
   (str "42", str "rs485ChunkEnvelopeResponse"), (str "44", str "moisture"),
   (str "45", str "tempHumidityLight"), (str "46", str "tempHumidityAdc"),
   (str "60", str "boot"), (str "61", str "text"), (str "70", str "rs485Config")]

/-- Property access `MESSAGE_TYPES[messageType]`. -/
def messageTypesLookup (code : JsStr) : Option JsStr :=
  (MESSAGE_TYPES.find? (fun e => e.1 == code)).map (fun e => e.2)

/-- `BROADCAST_MESSAGE_TYPES` (src/index.js lines 43-55). -/
def BROADCAST_MESSAGE_TYPES : List JsStr :=
  [str "30", str "31", str "32", str "37", str "39", str "42", str "44",
   str "45", str "46", str "60", str "61"]

/-- `IGNORABLE_MESSAGE_TYPES` (src/index.js line 151). -/
def IGNORABLE_MESSAGE_TYPES : List JsStr := [str "33", str "34", str "35"]

/-- Modelled from the spec: the deduplication cache is the external
`memory-cache-ttl` dependency (not part of this repository), initialized in
`runGateway` (src/index.js lines 184-186) with `ttl: 30, interval: 3`.  Per
the spec (section 4.3) a `get` does not itself expire entries; expiry happens
only on the periodic 3-second sweep.  The cache is a list of
(key, expiry-time) pairs with times in whole seconds. -/
abbrev Cache := List (JsStr × Nat)

/-- Modelled from the spec: the state the cache presents at time `now` — the
most recent sweep (at time `3 * (now / 3)`) removed every entry whose expiry
it had passed.  Folding sweeps into lookups this way is observationally
equivalent for nondecreasing access times, since an entry a sweep removes
stays removed at every later sweep. -/
def cacheSweep (now : Nat) (c : Cache) : Cache :=
  c.filter (fun e => 3 * (now / 3) ≤ e.2)

/-- `cache.get(key)` truthiness: membership among live entries. -/
def cacheHas (c : Cache) (k : JsStr) : Bool := c.any (fun e => e.1 == k)

/-- `cache.set(key, true)` with the configured 30-second ttl. -/
def cacheSet (c : Cache) (k : JsStr) (now : Nat) : Cache := (k, now + 30) :: c

/-- The tempHumidityLight lux value `0.003 * adcIn ^ (1.89 - (3.7 - battery)/25)`
uses `Math.pow` with a fractional exponent — an IEEE-754 transcendental that a
shallow rational embedding cannot reproduce.  It is represented symbolically
by its two inputs; no claim inspects the numeric value. -/
structure LuxSym where
  adcInRaw : JsInt
  battery : JsNum
  deriving DecidableEq

/-- The decoded, type-specific payload object: every field that any decoder
branch of `parseMessage` may set, absent (`none`) unless set. -/
structure Payload where
  battery : Option JsNum := none
  temperature : Option JsNum := none
  temperatureUnit : Option JsStr := none
  humidity : Option JsNum := none
  eventCount : Option JsInt := none
  moisture : Option Bool := none
  motion : Option Bool := none
  switch : Option Bool := none
  resetCause : Option JsStr := none
  baudRate : Option JsStr := none
  parity : Option JsStr := none
  stopBits : Option Int := none
  bitMask : Option Int := none
  data : Option JsStr := none
  rs485 : Option JsStr := none
  numChunks : Option JsInt := none
  chunkSize : Option JsInt := none
  text : Option JsStr := none
  lux : Option LuxSym := none
  bucketedLux : Option LuxSym := none
  adcIn : Option JsStr := none
  adcMax : Option JsStr := none
  deriving DecidableEq

/-- The unit delivered to `onSensorMessage`; `payload = none` models the
`delete(message.payload)` performed when `sendDecodedPayload` is off.
`numHops`/`maxHops`/`rawData` are absent unless the respective option adds
them.  `timestamp` is the event-handling time `now` (in seconds, scaled by
1000 when `useMillisecondTimestamps` is set). -/
structure SensorMessage where
  type : JsStr
  payload : Option Payload := some {}
  sensorId : JsStr
  sequenceNumber : JsInt
  timestamp : Nat
  numHops : Option JsInt := none
  maxHops : Option JsInt := none
  rawData : Option JsStr := none
  deriving DecidableEq

/-- Apply an update to the (present) payload of a message, as the decoder
branches do; in the decode path the payload always starts as `{}`. -/
def withPayload (m : SensorMessage) (f : Payload → Payload) : SensorMessage :=
  { m with payload := some (f (m.payload.getD {})) }

/-- The per-type `switch (messageTypeString)` of `parseMessage`
(src/index.js lines 713-1025).  `none` models the branches that `return`
without calling the callback (status/boot suppression, bad rs485Config
length); `some m` is the message as mutated by the branch.  The `default`
branch (reached by `rs485ChunkRequest`, which the registry maps but the
switch does not handle) delivers the message with its empty payload. -/
def decodePayload (p : Params) (msg : SensorMessage) (mts : JsStr)
    (messageData : JsStr) (battery : JsNum) : Option SensorMessage :=
  if mts = str "tempHumidity" then
    let m1 :=
      if messageData.length = 8 then msg
      else if p.sendEventCount then
        withPayload msg (fun pl =>
          { pl with eventCount := some (jsParseInt16 (jsSubstring messageData 2 10)) })
      else msg
    let tempRaw :=
      if messageData.length = 8 then jsSubstring messageData 0 4
      else jsSubstring messageData 10 14
    let humidityRaw :=
      if messageData.length = 8 then jsSubstringFrom messageData 4
      else jsSubstringFrom messageData 14
    let tr := calculateTemperature p tempRaw
    some (withPayload m1 (fun pl =>
      { pl with battery := some battery, temperature := some tr.temperature,
                temperatureUnit := some tr.temperatureUnit,
                humidity := some (calculateHumidity humidityRaw) }))
  else if mts = str "tempHumidityAdc" then
    let m1 := withPayload msg (fun pl => { pl with battery := some battery })
    let m2 :=
      if p.sendEventCount then
        withPayload m1 (fun pl =>
          { pl with eventCount := some (jsParseInt16 (jsSubstring messageData 2 10)) })
      else m1
    let tr := calculateTemperature p (jsSubstring messageData 10 14)
    some (withPayload m2 (fun pl =>
      { pl with temperature := some tr.temperature,
                temperatureUnit := some tr.temperatureUnit,
                humidity := some (calculateHumidity (jsSubstring messageData 14 18)),
                adcIn := some (jsSubstringFrom messageData 26),
                adcMax := some (jsSubstring messageData 22 26) }))
  else if mts = str "tempHumidityLight" then
    let m1 := withPayload msg (fun pl => { pl with battery := some battery })
    let m2 :=
      if p.sendEventCount then
        withPayload m1 (fun pl =>
          { pl with eventCount := some (jsParseInt16 (jsSubstring messageData 2 10)) })
      else m1
    let tr := calculateTemperature p (jsSubstring messageData 10 14)
    let luxS : LuxSym := { adcInRaw := jsParseInt16 (jsSubstringFrom messageData 26)
                           battery := battery }
    let m3 := withPayload m2 (fun pl =>
      { pl with temperature := some tr.temperature,
                temperatureUnit := some tr.temperatureUnit,
                humidity := some (calculateHumidity (jsSubstring messageData 14 18)),
                bucketedLux := some luxS })
    let m4 :=
      if p.sendRawLux then withPayload m3 (fun pl => { pl with lux := some luxS }) else m3
    some (if p.sendAdcWithLux then
            withPayload m4 (fun pl =>
              { pl with adcIn := some (jsSubstringFrom messageData 26),
                        adcMax := some (jsSubstring messageData 22 26) })
          else m4)
  else if mts = str "moisture" then
    let m1 := withPayload msg (fun pl => { pl with battery := some battery })
    let m2opt :=
      if jsStartsWith messageData (str "21") ∨ jsStartsWith messageData (str "22") then
        if p.sendStatusMessages = false then none
        else
          let tr := calculateTemperature p (jsSubstring messageData 10 14)
          some (withPayload { m1 with type := str "moistureStatus" } (fun pl =>
            { pl with moisture := some (jsStartsWith messageData (str "21")),
                      temperature := some tr.temperature,
                      temperatureUnit := some tr.temperatureUnit,
                      humidity := some (calculateHumidity (jsSubstringFrom messageData 14)) }))
      else
        some (withPayload m1 (fun pl =>
          { pl with moisture := some (jsStartsWith messageData (str "81")) }))
    match m2opt with
    | none => none
    | some m2 =>
      some (if p.sendEventCount then
              withPayload m2 (fun pl =>
                { pl with eventCount := some (jsParseInt16 (jsSubstring messageData 2 10)) })
            else m2)
  else if mts = str "motion" then
    let m1 := withPayload msg (fun pl => { pl with battery := some battery })
    let m2opt :=
      if jsStartsWith messageData (str "20") then
        if p.sendStatusMessages = false then none
        else some { m1 with type := str "motionStatus" }
      else some (withPayload m1 (fun pl => { pl with motion := some true }))
    match m2opt with
    | none => none
    | some m2 =>
      some (if messageData.length = 10 ∧ p.sendEventCount then
              withPayload m2 (fun pl =>
                { pl with eventCount := some (jsParseInt16 (jsSubstringFrom messageData 2)) })
            else m2)
  else if mts = str "switch" then
    let m1 := withPayload msg (fun pl => { pl with battery := some battery })
    let m2 :=
      if messageData.length = 10 ∧ p.sendEventCount then
        withPayload m1 (fun pl =>
          { pl with eventCount := some (jsParseInt16 (jsSubstringFrom messageData 2)) })
      else m1
    if jsStartsWith messageData (str "21") ∨ jsStartsWith messageData (str "22") then
      if p.sendStatusMessages = false then none
      else
        some (withPayload { m2 with type := str "switchStatus" } (fun pl =>
          { pl with switch := some (if p.switchOpenValue then
                                      jsStartsWith messageData (str "21")
                                    else jsStartsWith messageData (str "22")) }))
    else
      some (withPayload m2 (fun pl =>
        { pl with switch := some (if p.switchOpenValue then
                                    jsStartsWith messageData (str "81")
                                  else jsStartsWith messageData (str "82")) }))
  else if mts = str "boot" then
    if p.sendBootMessages then
      let cause :=
        if messageData = str "00" then str "powerOn"
        else if messageData = str "01" then str "externalReset"
        else if messageData = str "02" then str "watchdogReset"
        else str "unknown"
      some (withPayload msg (fun pl =>
        { pl with battery := some battery, resetCause := some cause }))
    else none
  else if mts = str "rs485Config" then
    if messageData.length ≠ 7 then none
    else
      let baud := jsSubstring messageData 0 2
      let par := jsSubstring messageData 2 4
      let stop := jsSubstring messageData 4 6
      let bits := jsSubstringFrom messageData 6
      some (withPayload msg (fun pl =>
        { pl with
          baudRate := some (if baud = str "00" then str "2400"
                            else if baud = str "01" then str "4800"
                            else if baud = str "02" then str "9600"
                            else if baud = str "03" then str "19200"
                            else str "?"),
          parity := some (if par = str "00" then str "none"
                          else if par = str "01" then str "odd"
                          else if par = str "02" then str "even"
                          else str "?"),
          stopBits := some (if stop = str "00" then 1
                            else if stop = str "01" then 2
                            else -1),
          bitMask := some (if bits = str "00" then 8
                           else if bits = str "01" then 7
                           else -1) }))
  else if mts = str "rs485Request" then
    some (withPayload msg (fun pl => { pl with data := some messageData }))
  else if mts = str "rs485Response" then
    some (withPayload msg (fun pl =>
      { pl with battery := some battery, rs485 := some messageData }))
  else if mts = str "rs485ChunkEnvelopeResponse" then
    some (withPayload msg (fun pl =>
      { pl with battery := some battery,
                numChunks := some (jsParseInt16 (jsSubstring messageData 0 2)),
                chunkSize := some (jsParseInt16 (jsSubstringFrom messageData 2)) }))
  else if mts = str "rs485ChunkResponse" then
    some (withPayload msg (fun pl =>
      { pl with battery := some battery, data := some messageData }))
  else if mts = str "text" then
    some (withPayload msg (fun pl =>
      { pl with battery := some battery,
                text := some (if p.decodeTextMessages then hexDecode messageData
                              else messageData) }))
  else some msg

/-- Continuation of `parseMessage` past the deduplication check
(src/index.js lines 683-1028): build the message envelope, then either strip
the payload (`sendDecodedPayload` off, line 710-711) or run the per-type
decoder, and invoke the callback unless the decoder vetoed. -/
def parseDeliver (p : Params) (now : Nat) (data0 data : JsStr)
    (headerLength : Nat) (messageType messageTypeString : JsStr)
    (cache1 : Cache) : Cache × Except Unit (Option SensorMessage) :=
  let sourceAddr := jsSubstring data 8 12
  let sequenceNumber := jsParseInt16 (jsSubstring data 2 4)
  let battery := (jsParseInt16 (jsSubstring data (4 + headerLength * 2)
                   (6 + headerLength * 2))).map (fun i => JsRat.ofInt i / 10)
  let messageData := jsSubstringFrom data (6 + headerLength * 2)
  let isBroadcast := BROADCAST_MESSAGE_TYPES.contains messageType
  let msg : SensorMessage :=
    { type := messageTypeString
      payload := some {}
      sensorId := sourceAddr
      sequenceNumber := sequenceNumber
      timestamp := if p.useMillisecondTimestamps then now * 1000 else now
      numHops := if isBroadcast ∧ p.sendHopData then
                   some (jsParseInt16 (jsSubstring data 4 6)) else none
      maxHops := if isBroadcast ∧ p.sendHopData then
                   some (jsParseInt16 (jsSubstring data 6 8)) else none
      rawData := if p.sendRawData then some data0 else none }
  if p.sendDecodedPayload = false then
    (cache1, .ok (some { msg with payload := none }))
  else
    match decodePayload p msg messageTypeString messageData battery with
    | none => (cache1, .ok none)
    | some m => (cache1, .ok (some m))

/-- Third stage of `parseMessage` (src/index.js lines 660-681), reached once
the message type is known to be registered and not ignorable: extract the
deduplication key fields and consult the burst cache, then continue with
`parseDeliver`. -/
def parseTyped (p : Params) (now : Nat) (cache : Cache) (data0 data : JsStr)
    (headerLength : Nat) (messageType messageTypeString : JsStr) :
    Cache × Except Unit (Option SensorMessage) :=
  let sourceAddr := jsSubstring data 8 12
  let sequenceNumber := jsParseInt16 (jsSubstring data 2 4)
  let messageData := jsSubstringFrom data (6 + headerLength * 2)
  if p.deDuplicateBursts then
    let cacheKey := sourceAddr ++ jsIntToStr sequenceNumber ++ messageData
    let live := cacheSweep now cache
    if cacheHas live cacheKey then (live, .ok none)
    else parseDeliver p now data0 data headerLength messageType messageTypeString
           (cacheSet live cacheKey now)
  else parseDeliver p now data0 data headerLength messageType messageTypeString cache

/-- Second stage of `parseMessage` (src/index.js lines 639-658): message-type
extraction, the ignorable-set drop (whose debug log, source line 644,
interpolates the undefined identifier `fullMesage` — a misspelling of
`fullMessage` — and therefore throws an uncaught ReferenceError, modelled as
`.error ()`), and the registry lookup. -/
def parseFrame (p : Params) (now : Nat) (cache : Cache) (data0 data : JsStr)
    (headerLength : Nat) : Cache × Except Unit (Option SensorMessage) :=
  let messageType := jsSubstring data (2 + headerLength * 2) (4 + headerLength * 2)
  if IGNORABLE_MESSAGE_TYPES.contains messageType then
    if p.debugMode then (cache, .error ()) else (cache, .ok none)
  else
    match messageTypesLookup messageType with
    | none => (cache, .ok none)
    | some messageTypeString =>
      if messageTypeString.length = 0 then (cache, .ok none)
      else parseTyped p now cache data0 data headerLength messageType messageTypeString

/-- `parseMessage` (src/index.js lines 599-1029).  Returns the cache as left
behind (sweeps folded in on access, see `cacheSweep`) and either `.error ()`
(the line-644 ReferenceError), `.ok none` (the record was dropped: no
callback) or `.ok (some m)` (the callback was invoked with `m`).  This stage
strips the CRC and enforces the header-byte policy (lines 607-637). -/
def parseMessage (p : Params) (now : Nat) (cache : Cache) (data0 : JsStr) :
    Cache × Except Unit (Option SensorMessage) :=
  if jsAndMask (jsParseInt16 (jsSubstring (jsSubstring data0 0 (data0.length - 4)) 0 2)) 128 ≠ 0 then
    (cache, .ok none)
  else if jsAndMask (jsParseInt16 (jsSubstring (jsSubstring data0 0 (data0.length - 4)) 0 2)) 96 ≠ 32 then
    (cache, .ok none)
  else
    parseFrame p now cache data0 (jsSubstring data0 0 (data0.length - 4))
      (jsAndMask (jsParseInt16 (jsSubstring (jsSubstring data0 0 (data0.length - 4)) 0 2)) 31)

/-- The three identity fields of the gateway singleton; `none` is the
`undefined` they are reset to on device loss. -/
structure GatewayState where
  macAddress : Option JsStr := none
  contikiVersion : Option JsStr := none
  conectricVersion : Option JsStr := none
  deriving DecidableEq

/-- JS truthiness of a possibly-undefined string: `undefined` and `""` are
falsy. -/
def truthy : Option JsStr → Bool
  | none => false
  | some s => !s.isEmpty

/-- The `parser.on('data', ...)` record dispatcher installed by
`startGateway` (src/index.js lines 235-267): frames behind the identity gate,
`MR:`/`DP:Ok`/`SS:Ok`/`ver:` bring-up records, everything else ignored. -/
def handleData (p : Params) (now : Nat) (st : GatewayState) (cache : Cache)
    (d : JsStr) : GatewayState × Cache × Except Unit (Option SensorMessage) :=
  if (jsStartsWith d (str ">") && truthy st.conectricVersion &&
      truthy st.contikiVersion && truthy st.macAddress) = true then
    let r := parseMessage p now cache (jsSubstringFrom d 1)
    (st, r.1, r.2)
  else if jsStartsWith d (str "MR:") then
    ({ st with macAddress := some (jsSubstringFrom d 3) }, cache, .ok none)
  else if d = str "DP:Ok" then (st, cache, .ok none)
  else if d = str "SS:Ok" then (st, cache, .ok none)
  else if jsStartsWith (jsToLower d) (str "ver:contiki") then
    ({ st with contikiVersion := some (jsSubstringFrom d 12) }, cache, .ok none)
  else if jsStartsWith (jsToLower d) (str "ver:conectric-v") then
    ({ st with conectricVersion := some (jsSubstringFrom d 15) }, cache, .ok none)
  else (st, cache, .ok none)

/-- Feed a sequence of timed records through the dispatcher, collecting the
messages delivered to `onSensorMessage`; an uncaught exception aborts the
run. -/
def runRecords (p : Params) :
    List (Nat × JsStr) → GatewayState → Cache →
    Except Unit (GatewayState × Cache × List SensorMessage)
  | [], st, cache => .ok (st, cache, [])
  | (t, d) :: rest, st, cache =>
    match handleData p t st cache d with
    | (_, _, .error e) => .error e
    | (st1, cache1, .ok mo) =>
      (runRecords p rest st1 cache1).map
        (fun r => (r.1, r.2.1, mo.toList ++ r.2.2))

/-- Whether a `parseMessage` outcome invoked the sensor-message callback. -/
def delivers : Except Unit (Option SensorMessage) → Bool
  | .ok (some _) => true
  | _ => false

end Conectric

deriving instance DecidableEq for Except

namespace Conectric

/-- A substring entirely inside the left part of an append ignores the right
part. -/
lemma jsSubstring_append_of_le (s t : JsStr) (a b : Nat) (hab : a ≤ b)
    (hb : b ≤ s.length) : jsSubstring (s ++ t) a b = jsSubstring s a b := by
  simp only [jsSubstring, List.length_append]
  have h1 : min a (s.length + t.length) = a := by omega
  have h2 : min b (s.length + t.length) = b := by omega
  have h3 : min a s.length = a := by omega
  have h4 : min b s.length = b := by omega
  rw [h1, h2, h3, h4]
  have h5 : min a b = a := by omega
  have h6 : max a b = b := by omega
  rw [h5, h6, List.drop_append_of_le_length (by omega)]
  rw [List.take_append_of_le_length (by rw [List.length_drop]; omega)]

/-- Taking everything from the length of the left part of an append yields the
right part. -/
lemma jsSubstringFrom_append (s t : JsStr) (a : Nat) (h : a = s.length) :
    jsSubstringFrom (s ++ t) a = t := by
  subst h
  simp only [jsSubstringFrom, jsSubstring, List.length_append]
  have h1 : min s.length (s.length + t.length) = s.length := by omega
  have h2 : min (s.length + t.length) (s.length + t.length) = s.length + t.length := by omega
  rw [h1, h2]
  have h3 : min s.length (s.length + t.length) = s.length := by omega
  have h4 : max s.length (s.length + t.length) - s.length = t.length := by omega
  rw [h3, h4, List.drop_left, List.take_length]

/-- A substring beginning past the left part of an append reads the right
part, with shifted indices. -/
lemma jsSubstring_append_ge (s t : JsStr) (a b : Nat) (hab : a ≤ b)
    (ha : s.length ≤ a) :
    jsSubstring (s ++ t) a b = jsSubstring t (a - s.length) (b - s.length) := by
  simp only [jsSubstring, List.length_append]
  have e1 : min (min a (s.length + t.length)) (min b (s.length + t.length))
      = s.length + min (min (a - s.length) t.length) (min (b - s.length) t.length) := by
    omega
  have e2 : max (min a (s.length + t.length)) (min b (s.length + t.length))
        - min (min a (s.length + t.length)) (min b (s.length + t.length))
      = max (min (a - s.length) t.length) (min (b - s.length) t.length)
        - min (min (a - s.length) t.length) (min (b - s.length) t.length) := by
    omega
  rw [e2, e1, List.drop_append]

/-- Stripping the 4-character CRC from a record built as body ++ 4-char CRC
leaves the body. -/
lemma jsStrip_append (s t : JsStr) (h : t.length = 4) :
    jsSubstring (s ++ t) 0 ((s ++ t).length - 4) = s := by
  simp only [jsSubstring, List.length_append, h]
  have e1 : min (min 0 (s.length + 4)) (min (s.length + 4 - 4) (s.length + 4)) = 0 := by
    omega
  have e2 : max (min 0 (s.length + 4)) (min (s.length + 4 - 4) (s.length + 4))
      - min (min 0 (s.length + 4)) (min (s.length + 4 - 4) (s.length + 4)) = s.length := by
    omega
  rw [e2, e1, List.drop_zero, List.take_append_of_le_length (le_refl s.length),
    List.take_length]

/-- C2: for every inbound frame record, if the header byte the code computes
has bit 7 set (`value & 0x80 ≠ 0`, extended header) or bits 5-6 different
from the simple-payload value (`value & 0x60 ≠ 32`), `parseMessage` returns
without invoking the callback and without crashing, for every configuration,
cache state and remaining record content. -/
theorem c2_unsupported_header_rejected (p : Params) (now : Nat) (cache : Cache)
    (d : JsStr)
    (h : jsAndMask (jsParseInt16 (jsSubstring (jsSubstring d 0 (d.length - 4)) 0 2)) 128 ≠ 0
       ∨ jsAndMask (jsParseInt16 (jsSubstring (jsSubstring d 0 (d.length - 4)) 0 2)) 96 ≠ 32) :
    parseMessage p now cache d = (cache, Except.ok none) := by
  unfold parseMessage
  rcases h with h | h
  · rw [if_pos h]
  · by_cases h0 : jsAndMask (jsParseInt16 (jsSubstring (jsSubstring d 0 (d.length - 4)) 0 2)) 128 ≠ 0
    · rw [if_pos h0]
    · rw [if_neg h0, if_pos h]

/-- C2 witness: the extended-header record `8020CRCC` is rejected without a
crash and without a callback. -/
theorem c2_unsupported_header_rejected_witness :
    parseMessage ({} : Params) 0 [] (str "8020CRCC") = ([], Except.ok none) :=
  c2_unsupported_header_rejected {} 0 [] (str "8020CRCC") (Or.inl (by decide))

/-- C4: evaluating `parseMessage` on the ignorable-type frame `2033AAAACRCC`
(message type `33`): with `debugMode` on, the debug log of the ignorable
branch (src/index.js line 644) interpolates the undefined identifier
`fullMesage` — a misspelling of `fullMessage` — and throws an uncaught
ReferenceError, contradicting the claim that ignorable frames are dropped
without exception under every configuration; with `debugMode` off the frame
is dropped silently as the claim describes. -/
theorem c4_ignorable_debug_crash :
    (parseMessage { debugMode := true } 0 [] (str "2033AAAACRCC")).2 = Except.error ()
    ∧ (parseMessage ({} : Params) 0 [] (str "2033AAAACRCC")).2 = Except.ok none := by
  constructor
  · decide
  · decide

/-- C9: evaluating `parseMessage` on the record `2033CRCC`, whose stripped
body (4 characters) is shorter than the 6 characters the fixed field offsets
need at header length 0: with `debugMode` on, processing throws the
line-644 ReferenceError (the short body's type field spells the ignorable
code `33`), contradicting the claim that short records never raise; with
`debugMode` off the record is dropped without a crash. -/
theorem c9_short_record_debug_crash :
    (parseMessage { debugMode := true } 0 [] (str "2033CRCC")).2 = Except.error ()
    ∧ (parseMessage ({} : Params) 0 [] (str "2033CRCC")).2 = Except.ok none
    ∧ (str "2033CRCC").length - 4 < 6 := by
  refine ⟨by decide, by decide, by decide⟩

/-- The spec's Celsius formula (section 4.4): `round2(-46.85 + (t/65536)*175.72)`. -/
def specCelsius (t : JsRat) : JsRat := roundTo (-(4685/100) + t / 65536 * (17572/100)) 2

/-- The spec's Fahrenheit conversion: `round2(celsius*9/5 + 32)`. -/
def specFahrenheit (c : JsRat) : JsRat := roundTo (c * (9/5) + 32) 2

/-- The spec's humidity formula: `round2(-6 + 125*(h/65536))`. -/
def specHumidity (h : JsRat) : JsRat := roundTo (-(6 : JsRat) + 125 * (h / 65536)) 2

/-- C5 counterexample: the conversion at the claim's own example points gives
41.01 (not the claimed 41.52) for raw temperature `0x8000` and 25.25 (not the
claimed 25.0) for raw humidity `0x4000`. -/
theorem c5_example_values_counterexample :
    (calculateTemperature ({} : Params) (str "8000")).temperature = some ((4101 : JsRat)/100)
    ∧ ((4101 : JsRat)/100 ≠ (4152 : JsRat)/100)
    ∧ calculateHumidity (str "4000") = some ((101 : JsRat)/4)
    ∧ ((101 : JsRat)/4 ≠ (25 : JsRat)) := by
  refine ⟨by decide, by decide, by decide, by decide⟩

/-- C5 (amended): `calculateTemperature` and `calculateHumidity` are pure
functions of the raw hex input and the Fahrenheit flag, computing exactly the
spec's formulas; the example points evaluate to 41.01 Celsius and 25.25
percent. -/
theorem c5_formulas (p : Params) (t h : Int) (raw hraw : JsStr)
    (ht : jsParseInt16 raw = some t) (hh : jsParseInt16 hraw = some h) :
    calculateTemperature { p with useFahrenheitTemps := false } raw
      = { temperature := some (specCelsius (JsRat.ofInt t)), temperatureUnit := str "C" }
    ∧ calculateTemperature { p with useFahrenheitTemps := true } raw
      = { temperature := some (specFahrenheit (specCelsius (JsRat.ofInt t))),
          temperatureUnit := str "F" }
    ∧ calculateHumidity hraw = some (specHumidity (JsRat.ofInt h))
    ∧ specCelsius (JsRat.ofInt 32768) = (4101 : JsRat)/100
    ∧ specHumidity (JsRat.ofInt 16384) = (101 : JsRat)/4 := by
  refine ⟨?_, ?_, ?_, by decide, by decide⟩
  · unfold calculateTemperature
    rw [ht]
    rfl
  · unfold calculateTemperature
    rw [ht]
    rfl
  · unfold calculateHumidity
    rw [hh]
    rfl

/-- C1: a record beginning with `>` is handed to the frame parser only when
the three identity fields are all set: when any of them is unset the
dispatcher leaves state and cache untouched and delivers nothing, and when
all three are truthy the record (minus the `>`) goes to `parseMessage`. -/
theorem c1_identity_gate (p : Params) (now : Nat) (st : GatewayState)
    (cache : Cache) (d : JsStr) (hd : jsStartsWith d (str ">") = true) :
    ((st.macAddress = none ∨ st.contikiVersion = none ∨ st.conectricVersion = none) →
      handleData p now st cache d = (st, cache, Except.ok none))
    ∧ ((truthy st.conectricVersion && truthy st.contikiVersion &&
        truthy st.macAddress) = true →
      handleData p now st cache d
        = (st, (parseMessage p now cache (jsSubstringFrom d 1)).1,
               (parseMessage p now cache (jsSubstringFrom d 1)).2)) := by
  obtain ⟨t, rfl⟩ : ∃ t, d = '>' :: t := by
    cases d with
    | nil => exact absurd hd (by decide)
    | cons c t =>
      refine ⟨t, ?_⟩
      have hc : c = '>' := by
        simp [jsStartsWith, str, List.isPrefixOf] at hd
        exact hd.symm
      rw [hc]
  constructor
  · intro hun
    unfold handleData
    rcases hun with h | h | h <;>
      rw [if_neg (by simp [truthy, h]), if_neg (fun hx => nomatch hx),
        if_neg (fun hx => nomatch hx), if_neg (fun hx => nomatch hx),
        if_neg (fun hx => nomatch hx), if_neg (fun hx => nomatch hx)]
  · intro htr
    unfold handleData
    rw [if_pos]
    simp only [Bool.and_eq_true] at htr ⊢
    exact ⟨⟨⟨hd, htr.1.1⟩, htr.1.2⟩, htr.2⟩

/-- C1 witness: with no identity field set, a frame record is ignored; with
all three set, it is handed to the frame parser. -/
theorem c1_identity_gate_witness :
    handleData {} 0 {} [] (str ">20") = ({}, [], Except.ok none)
    ∧ handleData {} 7 ⟨some (str "1234"), some (str "1.0"), some (str "2.0")⟩ []
        (str ">8020CRCC")
      = (⟨some (str "1234"), some (str "1.0"), some (str "2.0")⟩,
         (parseMessage {} 7 [] (jsSubstringFrom (str ">8020CRCC") 1)).1,
         (parseMessage {} 7 [] (jsSubstringFrom (str ">8020CRCC") 1)).2) :=
  ⟨(c1_identity_gate {} 0 {} [] (str ">20") (by decide)).1 (Or.inl rfl),
   (c1_identity_gate {} 7 ⟨some (str "1234"), some (str "1.0"), some (str "2.0")⟩ []
      (str ">8020CRCC") (by decide)).2 (by decide)⟩

set_option maxRecDepth 8000 in
/-- Parsing the two-character encoding of a byte recovers the byte, and the
encoding always has exactly two characters. -/
lemma hexEncodeChar_ok : ∀ n : Nat, n < 256 →
    jsParseInt16 (hexEncodeChar n) = some (n : Int)
    ∧ (hexEncodeChar n).length = 2 := by decide

/-- C8: for every byte string (each character code at most 255),
`hexDecode (hexEncode s) = s`. -/
theorem c8_hex_roundtrip (s : JsStr) (h : ∀ c ∈ s, c.toNat ≤ 255) :
    hexDecode (hexEncode s) = s := by
  induction s with
  | nil => rfl
  | cons c rest ih =>
    have hc : c.toNat < 256 := by
      have := h c (List.mem_cons_self c rest)
      omega
    obtain ⟨hparse, hlen⟩ := hexEncodeChar_ok c.toNat hc
    obtain ⟨a, b, hab⟩ : ∃ a b, hexEncodeChar c.toNat = [a, b] := by
      match e : hexEncodeChar c.toNat with
      | [a, b] => exact ⟨a, b, rfl⟩
      | [] => rw [e] at hlen; simp at hlen
      | [a] => rw [e] at hlen; simp at hlen
      | a :: b :: x :: r => rw [e] at hlen; simp at hlen
    have he : hexEncode (c :: rest) = a :: b :: hexEncode rest := by
      show hexEncodeChar c.toNat ++ hexEncode rest = _
      rw [hab]
      rfl
    rw [he]
    show jsFromCharCode (jsParseInt16 [a, b]) :: hexDecode (hexEncode rest) = c :: rest
    rw [← hab, hparse, ih (fun x hx => h x (List.mem_cons_of_mem c hx))]
    congr 1
    show Char.ofNat (((c.toNat : Int)) % (65536 : Int)).toNat = c
    have h1 : (((c.toNat : Int)) % (65536 : Int)).toNat = c.toNat := by omega
    rw [h1, Char.ofNat_toNat]

/-- C8 witness: the round trip at the byte string `Hi!`. -/
theorem c8_hex_roundtrip_witness : hexDecode (hexEncode (str "Hi!")) = str "Hi!" :=
  c8_hex_roundtrip (str "Hi!") (by decide)

/-- With decoded payloads off, `parseDeliver` always delivers the envelope
with its payload removed. -/
lemma parseDeliver_sdp_false (p : Params) (hsdp : p.sendDecodedPayload = false)
    (now : Nat) (data0 data : JsStr) (hl : Nat) (mt mts : JsStr)
    (cache1 : Cache) (c : Cache) (m : SensorMessage) :
    parseDeliver p now data0 data hl mt mts cache1 = (c, Except.ok (some m)) →
      m.payload = none := by
  unfold parseDeliver
  rw [if_pos hsdp]
  intro heq
  injection heq with h1 h2
  injection h2 with h3
  injection h3 with h4
  rw [← h4]

/-- With decoded payloads off, anything `parseTyped` delivers has its payload
removed. -/
lemma parseTyped_sdp_false (p : Params) (hsdp : p.sendDecodedPayload = false)
    (now : Nat) (cache : Cache) (data0 data : JsStr) (hl : Nat)
    (mt mts : JsStr) (c : Cache) (m : SensorMessage) :
    parseTyped p now cache data0 data hl mt mts = (c, Except.ok (some m)) →
      m.payload = none := by
  unfold parseTyped
  intro heq
  simp only [] at heq
  split at heq
  · split at heq
    · exact absurd heq (by simp)
    · exact parseDeliver_sdp_false p hsdp now data0 data hl mt mts _ c m heq
  · exact parseDeliver_sdp_false p hsdp now data0 data hl mt mts _ c m heq

/-- With decoded payloads off, anything `parseFrame` delivers has its payload
removed. -/
lemma parseFrame_sdp_false (p : Params) (now : Nat) (cache : Cache)
    (data0 data : JsStr) (hl : Nat) (hsdp : p.sendDecodedPayload = false)
    (c : Cache) (m : SensorMessage) :
    parseFrame p now cache data0 data hl = (c, Except.ok (some m)) →
      m.payload = none := by
  unfold parseFrame
  intro heq
  simp only [] at heq
  split at heq
  · split at heq
    · exact absurd heq (by simp)
    · exact absurd heq (by simp)
  · split at heq
    · exact absurd heq (by simp)
    · split at heq
      · exact absurd heq (by simp)
      · exact parseTyped_sdp_false p hsdp now cache data0 data hl _ _ c m heq

/-- With decoded payloads off, `parseDeliver` ignores the boot/status
flags. -/
lemma parseDeliver_cfg (p : Params) (b s : Bool)
    (hsdp : p.sendDecodedPayload = false) (now : Nat) (data0 data : JsStr)
    (hl : Nat) (mt mts : JsStr) (cache1 : Cache) :
    parseDeliver { p with sendBootMessages := b, sendStatusMessages := s }
        now data0 data hl mt mts cache1
      = parseDeliver p now data0 data hl mt mts cache1 := by
  unfold parseDeliver
  dsimp only
  rw [if_pos hsdp, if_pos hsdp]

/-- With decoded payloads off, `parseTyped` ignores the boot/status flags. -/
lemma parseTyped_cfg (p : Params) (b s : Bool)
    (hsdp : p.sendDecodedPayload = false) (now : Nat) (cache : Cache)
    (data0 data : JsStr) (hl : Nat) (mt mts : JsStr) :
    parseTyped { p with sendBootMessages := b, sendStatusMessages := s }
        now cache data0 data hl mt mts
      = parseTyped p now cache data0 data hl mt mts := by
  unfold parseTyped
  dsimp only
  simp only [parseDeliver_cfg p b s hsdp]

/-- With decoded payloads off, `parseFrame` ignores the boot/status flags. -/
lemma parseFrame_cfg (p : Params) (b s : Bool)
    (hsdp : p.sendDecodedPayload = false) (now : Nat) (cache : Cache)
    (data0 data : JsStr) (hl : Nat) :
    parseFrame { p with sendBootMessages := b, sendStatusMessages := s }
        now cache data0 data hl
      = parseFrame p now cache data0 data hl := by
  unfold parseFrame
  dsimp only
  simp only [parseTyped_cfg p b s hsdp]

/-- A configuration with decoded payloads off and both second-stage filters
off, used to exhibit the bypass concretely. -/
def pRawOff : Params :=
  { sendDecodedPayload := false, sendBootMessages := false,
    sendStatusMessages := false, deDuplicateBursts := false }

/-- C10: with `sendDecodedPayload` off, (1) every delivered message has its
payload removed, (2) the outcome is independent of `sendBootMessages` and
`sendStatusMessages` (so all per-type second-stage filtering is bypassed),
and concretely (3) a boot frame is delivered with boot messages disabled,
(4) a switch status frame is delivered with status messages disabled and
without the `Status` re-typing, and (5) an rs485Config frame whose payload
length is not 7 is delivered rather than dropped. -/
theorem c10_raw_delivery_bypasses_type_filters :
    (∀ (p : Params) (now : Nat) (cache : Cache) (d : JsStr) (c : Cache)
       (m : SensorMessage), p.sendDecodedPayload = false →
        parseMessage p now cache d = (c, Except.ok (some m)) → m.payload = none)
    ∧ (∀ (p : Params) (b s : Bool) (now : Nat) (cache : Cache) (d : JsStr),
        p.sendDecodedPayload = false →
        parseMessage { p with sendBootMessages := b, sendStatusMessages := s }
            now cache d
          = parseMessage p now cache d)
    ∧ (parseMessage pRawOff 0 [] (str "20601000CRCC")).2
        = Except.ok (some { type := str "boot", payload := none, sensorId := [],
                            sequenceNumber := some 96, timestamp := 0 })
    ∧ (parseMessage pRawOff 0 [] (str "2031102100000000CRCC")).2
        = Except.ok (some { type := str "switch", payload := none,
                            sensorId := str "0000", sequenceNumber := some 49,
                            timestamp := 0 })
    ∧ (parseMessage pRawOff 0 [] (str "2070100000CRCC")).2
        = Except.ok (some { type := str "rs485Config", payload := none,
                            sensorId := str "00", sequenceNumber := some 112,
                            timestamp := 0 }) := by
  refine ⟨?_, ?_, by decide, by decide, by decide⟩
  · intro p now cache d c m hsdp heq
    unfold parseMessage at heq
    split at heq
    · exact absurd heq (by simp)
    split at heq
    · exact absurd heq (by simp)
    exact parseFrame_sdp_false p _ _ _ _ _ hsdp c m heq
  · intro p b s now cache d hsdp
    unfold parseMessage
    simp only [parseFrame_cfg p b s hsdp]

/-- C10 witness: the payload-removal part applied at the concrete boot frame
under `pRawOff`. -/
theorem c10_raw_delivery_bypasses_type_filters_witness :
    ({ type := str "boot", payload := none, sensorId := [],
       sequenceNumber := some 96, timestamp := 0 } : SensorMessage).payload = none :=
  c10_raw_delivery_bypasses_type_filters.1 pRawOff 0 [] (str "20601000CRCC") []
    { type := str "boot", payload := none, sensorId := [],
      sequenceNumber := some 96, timestamp := 0 } rfl (by decide)

/-- Default configuration (every option defaulted as `runGateway` does,
deduplication on). -/
def p3dflt : Params := {}

/-- Concrete frame for the deduplication claims: an rs485Response (type `37`)
record with battery byte `1d`, payload `abcd` and trailing CRC. -/
def c3frame : JsStr := str "20371dabcdCRCC"

/-- Its deduplication fingerprint: source address ++ decimal sequence number
++ message data. -/
def c3key : JsStr := str "cd55abcd"

/-- The message `c3frame` delivers at time `now`. -/
def c3msg (now : Nat) : SensorMessage :=
  { type := str "rs485Response"
    payload := some { battery := some (some ((29 : JsRat)/10)),
                      rs485 := some (str "abcd") }
    sensorId := str "cd"
    sequenceNumber := some 55
    timestamp := now }

/-- Evaluating `parseMessage` on `c3frame` at any time and cache state: a
live cache hit on the fingerprint drops the frame; otherwise it is delivered
and the fingerprint inserted with a 30-second expiry. -/
lemma parse_c3frame (now : Nat) (cache : Cache) :
    parseMessage p3dflt now cache c3frame
      = (if cacheHas (cacheSweep now cache) c3key
         then (cacheSweep now cache, Except.ok none)
         else (cacheSet (cacheSweep now cache) c3key now,
               Except.ok (some (c3msg now)))) := rfl

set_option maxRecDepth 16000 in
/-- C3 counterexample: with deduplication on, the frame delivered at t = 1
and resubmitted at t = 32 — 31 seconds later, after the 30-second window has
expired — is still dropped, because no 3-second cleanup sweep later than the
entry's expiry (t = 31) has run yet (the last sweep was at t = 30). -/
theorem c3_expiry_lag_counterexample :
    delivers (parseMessage p3dflt 1 [] c3frame).2 = true
    ∧ (parseMessage p3dflt 32 (parseMessage p3dflt 1 [] c3frame).1 c3frame).2
        = Except.ok none
    ∧ 1 + 30 < 32 := by
  refine ⟨by decide, by decide, by decide⟩

/-- C3 (amended): with deduplication enabled, the first submission is
delivered and its fingerprint cached; a repeat strictly inside the 30-second
window yields no second callback (exactly one delivery); once a cleanup
sweep — they run every 3 seconds — postdates the fingerprint's expiry (at
most 3 seconds after the window ends), a repeat is treated as new and
delivered again. -/
theorem c3_dedup_window (t1 t2 : Nat) :
    delivers (parseMessage p3dflt t1 [] c3frame).2 = true
    ∧ (t2 < t1 + 30 →
        (parseMessage p3dflt t2 (parseMessage p3dflt t1 [] c3frame).1 c3frame).2
          = Except.ok none)
    ∧ (t1 + 30 < 3 * (t2 / 3) →
        delivers (parseMessage p3dflt t2 (parseMessage p3dflt t1 [] c3frame).1
          c3frame).2 = true) := by
  have h1 : parseMessage p3dflt t1 [] c3frame
      = ([(c3key, t1 + 30)], Except.ok (some (c3msg t1))) := by
    rw [parse_c3frame]
    rfl
  refine ⟨?_, ?_, ?_⟩
  · rw [h1]
    rfl
  · intro hw
    rw [h1, parse_c3frame]
    dsimp only []
    have hcond : 3 * (t2 / 3) ≤ t1 + 30 := by omega
    have hk : cacheSweep t2 [(c3key, t1 + 30)] = [(c3key, t1 + 30)] := by
      simp only [cacheSweep, List.filter_cons, List.filter_nil, decide_eq_true_eq]
      rw [if_pos hcond]
    rw [hk]
    rfl
  · intro hs
    rw [h1, parse_c3frame]
    dsimp only []
    have hcond : ¬ (3 * (t2 / 3) ≤ t1 + 30) := by omega
    have hk : cacheSweep t2 [(c3key, t1 + 30)] = [] := by
      simp only [cacheSweep, List.filter_cons, List.filter_nil, decide_eq_true_eq]
      rw [if_neg hcond]
    rw [hk]
    rfl

/-- C3 witness: the amended window theorem at concrete times — a repeat at
t = 10 is dropped, a repeat at t = 40 (sweep at 39, past expiry 31) is
delivered again. -/
theorem c3_dedup_window_witness :
    (parseMessage p3dflt 10 (parseMessage p3dflt 1 [] c3frame).1 c3frame).2
      = Except.ok none
    ∧ delivers (parseMessage p3dflt 40 (parseMessage p3dflt 1 [] c3frame).1
        c3frame).2 = true :=
  ⟨(c3_dedup_window 1 10).2.1 (by omega), (c3_dedup_window 1 40).2.2 (by omega)⟩

/-- Default configuration for the end-to-end trace. -/
def p6 : Params := {}

/-- The bring-up records of the end-to-end claim, at one-second intervals. -/
def c6bringup : List (Nat × JsStr) :=
  [(0, str "MR:1234"), (1, str "ver:contiki1.0"), (2, str "ver:conectric-v2.0"),
   (3, str "SS:Ok")]

/-- Gateway identity after the bring-up records (the source reads the Contiki
version from index 12 onward, so `ver:contiki1.0` leaves `.0`). -/
def c6state : GatewayState :=
  { macAddress := some (str "1234"), contikiVersion := some (str ".0"),
    conectricVersion := some (str "2.0") }

/-- The single tempHumidity message the amended end-to-end frame produces. -/
def c6msg : SensorMessage :=
  { type := str "tempHumidity"
    payload := some { battery := some (some ((29 : JsRat)/10)),
                      temperature := some (some ((4101 : JsRat)/100)),
                      temperatureUnit := some (str "C"),
                      humidity := some (some ((101 : JsRat)/4)) }
    sensorId := str "1234"
    sequenceNumber := some 1
    timestamp := 4 }

set_option maxRecDepth 16000 in
/-- C6 counterexample: the spec's own frame `>300030ff00001234000029xxxxCRCC`
has header byte `30`, whose low five bits give header length 16 (not the
claimed 0), so the message-type field is read past the end of the record and
the frame is dropped as an unknown type: the full bring-up trace delivers no
message at all, not exactly one. -/
theorem c6_spec_frame_counterexample :
    runRecords p6 (c6bringup ++ [(4, str ">300030ff00001234000029xxxxCRCC")]) {} []
      = Except.ok (c6state, [], [])
    ∧ jsAndMask (jsParseInt16 (str "30")) 31 = 16 := by
  refine ⟨by decide, by decide⟩

set_option maxRecDepth 16000 in
/-- C6 (amended): after the bring-up records, the frame
`>260100ff12340a301d80004000CRCC` (header length 6, simple payload, type `30`
= tempHumidity, source `1234`, battery `1d`, raw temperature `8000`, raw
humidity `4000`) produces exactly one tempHumidity message with sensorId
`1234`, temperature 41.01 °C and humidity 25.25 %; the same frame without the
bring-up records produces nothing. -/
theorem c6_end_to_end :
    runRecords p6 (c6bringup ++ [(4, str ">260100ff12340a301d80004000CRCC")]) {} []
      = Except.ok (c6state, [(str "1234180004000", 34)], [c6msg])
    ∧ runRecords p6 [(4, str ">260100ff12340a301d80004000CRCC")] {} []
      = Except.ok ({}, [], []) := by
  refine ⟨by decide, by decide⟩

/-- Configuration with deduplication off (to isolate the boot filter) and
boot messages at their enabled default. -/
def pBootT : Params := { deDuplicateBursts := false }

/-- Same with boot messages disabled. -/
def pBootF : Params := { deDuplicateBursts := false, sendBootMessages := false }

/-- Boot-with-payload-stripping configuration for the counterexample. -/
def pC7x : Params :=
  { sendBootMessages := false, sendDecodedPayload := false,
    deDuplicateBursts := false }

/-- Fixed prefix of a boot frame: header `20` (length 0, simple), type `60`,
battery byte `1d`. -/
def bootPre : JsStr := str "20601d"

/-- A boot record: prefix, arbitrary message data, 4-character CRC. -/
def bootRec (md : JsStr) : JsStr := (bootPre ++ md) ++ str "CRCC"

/-- The reset-cause mapping of the boot decoder (src/index.js lines
892-909). -/
def bootCause (md : JsStr) : JsStr :=
  if md = str "00" then str "powerOn"
  else if md = str "01" then str "externalReset"
  else if md = str "02" then str "watchdogReset"
  else str "unknown"

/-- The message `bootRec md` delivers when boot messages are enabled. -/
def bootMsg (now : Nat) (md : JsStr) : SensorMessage :=
  { type := str "boot"
    payload := some { battery := some (some ((29 : JsRat)/10)),
                      resetCause := some (bootCause md) }
    sensorId := jsSubstring md 2 6
    sequenceNumber := some 96
    timestamp := now }

/-- With boot messages enabled (and decoded payloads on), a boot record with
any message data is delivered with the mapped reset cause. -/
lemma parse_boot_T (md : JsStr) (now : Nat) :
    parseMessage pBootT now [] (bootRec md)
      = ([], Except.ok (some (bootMsg now md))) := by
  unfold parseMessage bootRec
  rw [jsStrip_append (bootPre ++ md) (str "CRCC") (by decide)]
  rw [jsSubstring_append_of_le bootPre md 0 2 (by decide) (by decide)]
  rw [if_neg (by decide), if_neg (by decide)]
  rw [show jsAndMask (jsParseInt16 (jsSubstring bootPre 0 2)) 31 = 0 from by decide]
  unfold parseFrame parseTyped parseDeliver
  rw [show (2 + 0 * 2 : Nat) = 2 from rfl, show (4 + 0 * 2 : Nat) = 4 from rfl,
    show (6 + 0 * 2 : Nat) = 6 from rfl]
  rw [jsSubstring_append_of_le bootPre md 2 4 (by decide) (by decide)]
  rw [jsSubstring_append_of_le bootPre md 4 6 (by decide) (by decide)]
  rw [jsSubstring_append_ge bootPre md 8 12 (by decide) (by decide)]
  rw [jsSubstringFrom_append bootPre md 6 (by decide)]
  rfl

/-- With boot messages disabled (and decoded payloads on), a boot record with
any message data is suppressed. -/
lemma parse_boot_F (md : JsStr) (now : Nat) :
    parseMessage pBootF now [] (bootRec md) = ([], Except.ok none) := by
  unfold parseMessage bootRec
  rw [jsStrip_append (bootPre ++ md) (str "CRCC") (by decide)]
  rw [jsSubstring_append_of_le bootPre md 0 2 (by decide) (by decide)]
  rw [if_neg (by decide), if_neg (by decide)]
  rw [show jsAndMask (jsParseInt16 (jsSubstring bootPre 0 2)) 31 = 0 from by decide]
  unfold parseFrame parseTyped parseDeliver
  rw [show (2 + 0 * 2 : Nat) = 2 from rfl, show (4 + 0 * 2 : Nat) = 4 from rfl,
    show (6 + 0 * 2 : Nat) = 6 from rfl]
  rw [jsSubstring_append_of_le bootPre md 2 4 (by decide) (by decide)]
  rw [jsSubstring_append_of_le bootPre md 4 6 (by decide) (by decide)]
  rw [jsSubstring_append_ge bootPre md 8 12 (by decide) (by decide)]
  rw [jsSubstringFrom_append bootPre md 6 (by decide)]
  rfl

/-- C7 counterexample: with `sendDecodedPayload` off, a boot frame is
delivered to the callback even though `sendBootMessages` is false,
contradicting the claim that boot frames are delivered only when boot
messages are enabled. -/
theorem c7_boot_without_flag_counterexample :
    pC7x.sendBootMessages = false
    ∧ delivers (parseMessage pC7x 0 [] (str "20601d01CRCC")).2 = true := by
  refine ⟨rfl, by decide⟩

/-- C7 (amended): with decoded payloads enabled, a boot frame is delivered
only when `sendBootMessages` is enabled, and when delivered its resetCause
maps message data `00` to powerOn, `01` to externalReset, `02` to
watchdogReset and anything else to unknown; with decoded payloads disabled
the boot filter is bypassed (see the counterexample). -/
theorem c7_boot_suppression_and_reset_cause (md : JsStr) (now : Nat) :
    (parseMessage pBootF now [] (bootRec md)).2 = Except.ok none
    ∧ parseMessage pBootT now [] (bootRec md)
        = ([], Except.ok (some (bootMsg now md)))
    ∧ bootCause (str "00") = str "powerOn"
    ∧ bootCause (str "01") = str "externalReset"
    ∧ bootCause (str "02") = str "watchdogReset"
    ∧ bootCause (str "ff") = str "unknown" := by
  refine ⟨?_, parse_boot_T md now, by decide, by decide, by decide, by decide⟩
  rw [parse_boot_F md now]

/-- C5 witness: the amended formula theorem applied at raw temperature
`8000`. -/
theorem c5_formulas_witness :
    calculateTemperature { ({} : Params) with useFahrenheitTemps := false } (str "8000")
      = { temperature := some (specCelsius (JsRat.ofInt 32768)), temperatureUnit := str "C" } :=
  (c5_formulas {} 32768 16384 (str "8000") (str "4000") (by decide) (by decide)).1

end Conectric
